import Mathlib

/-!
Verification of the career_bot assistant (`main.py`).

The file embeds the program's data model and operations as executable Lean
definitions: the two registered tools (`record_user_details`,
`record_unknown_question`), the notification `push`, the module-global
namespace used by `Me.handle_tool_calls` for dynamic lookup, the tool
dispatch itself, the chat completion loop of `Me.chat` (fuel-indexed, with
an instrumented trace of the requests sent to the endpoint and the
notification side effects), startup profile loading (`Me.__init__` and the
`__main__` block), the summary excerpt shown by the UI accordion, and a
small heap model for the Python list aliasing in `Me.chat`.

External effects are embedded by their observable outcome: a JSON
arguments string by its `json.loads` parse outcome, the filesystem by the
optional contents of the two profile files, the remote chat-completion
endpoint as a function from the request message sequence to a response,
and a `requests.post` notification by the posted message text.
-/

/-- A JSON value as produced by `json.loads` on a tool arguments string:
either an object with string-valued fields, or some non-object value
(the tools are declared with flat string-typed object schemas, and the
program only passes the parsed fields on as keyword arguments, so field
values are embedded as strings). Python dict keys are unique; field lists
of interest are key-distinct and are read with first-match lookup. -/
inductive PyJson where
  | nonObject : PyJson
  | jsonObject (fields : List (String × String)) : PyJson
  deriving DecidableEq

/-- A tool call arguments string (`tool_call.function.arguments`),
represented by its `json.loads` parse outcome: `invalid` stands for text
that is not valid JSON, `valid v` for text that parses to `v`. -/
inductive ArgText where
  | invalid : ArgText
  | valid (v : PyJson) : ArgText
  deriving DecidableEq

/-- The Python exceptions the dispatch path can raise: a
`json.JSONDecodeError` from `json.loads`, or a `TypeError` from calling a
looked-up global with keyword arguments it does not accept (or from
unpacking a non-mapping with `**`). -/
inductive PyError where
  | jsonDecodeError : PyError
  | typeError : PyError
  deriving DecidableEq

/-- A Python value returned by an invoked global and then serialized with
`json.dumps`: `None` (returned by `push`) or a flat string-valued dict. -/
inductive PyResult where
  | pyNone : PyResult
  | obj (fields : List (String × String)) : PyResult
  deriving DecidableEq

/-- `json.loads` on an arguments string: invalid JSON raises
`json.JSONDecodeError`, valid JSON yields the parsed value. -/
def jsonLoads : ArgText → Except PyError PyJson
  | ArgText.invalid => Except.error PyError.jsonDecodeError
  | ArgText.valid v => Except.ok v

/-- `json.dumps` on the values this program serializes (`None`, `{}` and
`{"recorded": "ok"}`), with the default separators; string escaping is not
needed for any value the program produces. -/
def jsonDumps : PyResult → String
  | PyResult.pyNone => "null"
  | PyResult.obj fields =>
      "\x7b" ++
        String.intercalate (", ")
          (fields.map (fun kv => "\"" ++ kv.1 ++ "\": \"" ++ kv.2 ++ "\"")) ++
      "\x7d"

/-- One tool call from the endpoint response: `tool_call.id`,
`tool_call.function.name` and `tool_call.function.arguments`. -/
structure ToolCall where
  id : String
  name : String
  arguments : ArgText
  deriving DecidableEq

/-- A message of the conversation sequence. History entries from the UI
are `user`/`assistant` messages; `assistant` with tool calls is the
endpoint message object appended verbatim by `Me.chat`; `tool` is a
tool-result message `{"role": "tool", "content": ..., "tool_call_id": ...}`
built by `Me.handle_tool_calls`. -/
inductive Message where
  | system (content : String) : Message
  | user (content : String) : Message
  | assistant (content : Option String) (tool_calls : List ToolCall) : Message
  | tool (content : String) (tool_call_id : String) : Message
  deriving DecidableEq

/-- The message part of the endpoint's first choice:
`response.choices[0].message`. A response without tool calls is embedded
with `tool_calls = []` (Python `None`), which `Me.chat` never reads in
that case. -/
structure AssistantMsg where
  content : Option String
  tool_calls : List ToolCall
  deriving DecidableEq

/-- The endpoint's first choice: `response.choices[0]`. -/
structure Response where
  finish_reason : String
  message : AssistantMsg
  deriving DecidableEq

/-- Python dict lookup on the parsed keyword arguments (keys are unique
in a dict, so first-match lookup agrees with dict access). -/
def lookupKw (k : String) (kwargs : List (String × String)) : Option String :=
  (kwargs.find? (fun p => p.1 == k)).map (fun p => p.2)

/-- The notification text built by `record_user_details` (`main.py` line
22): the f-string passed to `push`. -/
def record_user_details_message (email name notes : String) : String :=
  "Recording interest from " ++ name ++ ", with " ++ email ++ ", and notes " ++ notes

/-- The notification text built by `record_unknown_question` (`main.py`
line 26). -/
def record_unknown_question_message (question : String) : String :=
  "Recording " ++ question ++ " asked that I couldn\x27t answer"

/-- `record_user_details(email, name="Name not provided", notes="not
provided")`: pushes one notification and returns `{"recorded": "ok"}`.
The result pairs the returned value with the list of posted
notification texts. -/
def record_user_details (email name notes : String) : PyResult × List String :=
  (PyResult.obj [("recorded", "ok")], [record_user_details_message email name notes])

/-- `record_unknown_question(question)`: pushes one notification and
returns `{"recorded": "ok"}`. -/
def record_unknown_question (question : String) : PyResult × List String :=
  (PyResult.obj [("recorded", "ok")], [record_unknown_question_message question])

/-- Calling `record_user_details(**kwargs)`: Python binds keyword
arguments against the parameters `(email, name="Name not provided",
notes="not provided")`; an unexpected keyword or a missing `email` raises
`TypeError` before the body runs (so no notification is pushed). -/
def callRecordUserDetails (kwargs : List (String × String)) :
    Except PyError (PyResult × List String) :=
  if kwargs.all (fun p => p.1 == "email" || p.1 == "name" || p.1 == "notes") then
    match lookupKw ("email") kwargs with
    | none => Except.error PyError.typeError
    | some email =>
        Except.ok (record_user_details email
          ((lookupKw ("name") kwargs).getD ("Name not provided"))
          ((lookupKw ("notes") kwargs).getD ("not provided")))
  else Except.error PyError.typeError

/-- Calling `record_unknown_question(**kwargs)`: the only parameter is
`question`, required. -/
def callRecordUnknownQuestion (kwargs : List (String × String)) :
    Except PyError (PyResult × List String) :=
  if kwargs.all (fun p => p.1 == "question") then
    match lookupKw ("question") kwargs with
    | none => Except.error PyError.typeError
    | some q => Except.ok (record_unknown_question q)
  else Except.error PyError.typeError

/-- Calling `push(**kwargs)`: the only parameter is `message`, required;
the body posts the message text to the push service and returns `None`. -/
def callPush (kwargs : List (String × String)) :
    Except PyError (PyResult × List String) :=
  if kwargs.all (fun p => p.1 == "message") then
    match lookupKw ("message") kwargs with
    | none => Except.error PyError.typeError
    | some m => Except.ok (PyResult.pyNone, [m])
  else Except.error PyError.typeError

/-- A binding in the module's global namespace, as seen by
`globals().get(tool_name)` in `Me.handle_tool_calls`. The three
module-level functions are modelled exactly; every other module global
(imported modules, schema dicts, strings, the `Me` class, `me`, `demo`,
dunder entries) is `gOther`: calling one with the keyword arguments of a
tool call is outside the program's intent and is embedded uniformly as a
raised `TypeError` (no claim depends on the distinctions among them). -/
inductive PyGlobal where
  | gRecordUserDetails : PyGlobal
  | gRecordUnknownQuestion : PyGlobal
  | gPush : PyGlobal
  | gOther : PyGlobal
  deriving DecidableEq

/-- The module global namespace of `main.py` while the app serves
requests (run as `__main__`, after the top-level statements and the
`__main__` block have executed), keyed by name. -/
def globalsTable : List (String × PyGlobal) :=
  [("load_dotenv", PyGlobal.gOther), ("OpenAI", PyGlobal.gOther),
   ("json", PyGlobal.gOther), ("os", PyGlobal.gOther),
   ("requests", PyGlobal.gOther), ("gr", PyGlobal.gOther),
   ("PdfReader", PyGlobal.gOther),
   ("pushover_user", PyGlobal.gOther), ("pushover_token", PyGlobal.gOther),
   ("pushover_url", PyGlobal.gOther),
   ("push", PyGlobal.gPush),
   ("record_user_details", PyGlobal.gRecordUserDetails),
   ("record_unknown_question", PyGlobal.gRecordUnknownQuestion),
   ("record_user_details_json", PyGlobal.gOther),
   ("record_unknown_question_json", PyGlobal.gOther),
   ("tools", PyGlobal.gOther), ("Me", PyGlobal.gOther),
   ("me", PyGlobal.gOther), ("demo", PyGlobal.gOther),
   ("__name__", PyGlobal.gOther), ("__file__", PyGlobal.gOther),
   ("__doc__", PyGlobal.gOther), ("__builtins__", PyGlobal.gOther),
   ("__package__", PyGlobal.gOther), ("__spec__", PyGlobal.gOther),
   ("__loader__", PyGlobal.gOther), ("__annotations__", PyGlobal.gOther)]

/-- `globals().get(tool_name)`: `none` when the name is not bound in the
module namespace. -/
def globalsGet (name : String) : Option PyGlobal :=
  (globalsTable.find? (fun p => p.1 == name)).map (fun p => p.2)

/-- Invoking a looked-up global with the parsed keyword arguments. -/
def invokeGlobal : PyGlobal → List (String × String) → Except PyError (PyResult × List String)
  | PyGlobal.gRecordUserDetails, kwargs => callRecordUserDetails kwargs
  | PyGlobal.gRecordUnknownQuestion, kwargs => callRecordUnknownQuestion kwargs
  | PyGlobal.gPush, kwargs => callPush kwargs
  | PyGlobal.gOther, _ => Except.error PyError.typeError

/-- `result = tool(**arguments) if tool else {}` (`main.py` line 100):
when the name is unbound the arguments are not unpacked and the result is
the empty dict; when it is bound, `**` unpacking requires the parsed
value to be a mapping, then the global is called. -/
def dispatchLookup (name : String) (args : PyJson) :
    Except PyError (PyResult × List String) :=
  match globalsGet name with
  | none => Except.ok (PyResult.obj [], [])
  | some g =>
      match args with
      | PyJson.nonObject => Except.error PyError.typeError
      | PyJson.jsonObject kwargs => invokeGlobal g kwargs

/-- `Me.handle_tool_calls` (`main.py` lines 93-102): for each tool call in
order, parse the arguments, look the name up in `globals()`, invoke, and
accumulate one tool-result message carrying the originating call's id.
The first component collects the notification texts actually posted (side
effects survive a later exception); the second is the returned result
list, or the first raised exception — in which case the locally
accumulated `results` list is discarded. -/
def handleToolCalls : List ToolCall → List String × Except PyError (List Message)
  | [] => ([], Except.ok [])
  | tc :: rest =>
      match jsonLoads tc.arguments with
      | Except.error e => ([], Except.error e)
      | Except.ok args =>
          match dispatchLookup tc.name args with
          | Except.error e => ([], Except.error e)
          | Except.ok (result, pushes) =>
              let tr := handleToolCalls rest
              (pushes ++ tr.1,
                match tr.2 with
                | Except.error e => Except.error e
                | Except.ok msgs =>
                    Except.ok (Message.tool (jsonDumps result) tc.id :: msgs))

/-- The immutable profile state assembled by `Me.__init__`: `self.name`,
the concatenated PDF page texts `self.linkedin`, and the summary file
text `self.summary`. -/
structure MeState where
  name : String
  linkedin : String
  summary : String
  deriving DecidableEq

/-- `self.model_name` in `Me.__init__`. -/
def model_name : String := "gemini-2.0-flash"

/-- `self.linkedin_url` in `Me.__init__`. -/
def linkedin_url : String := "https://www.linkedin.com/in/gennaro-rascato"

/-- `self.github_url` in `Me.__init__`. -/
def github_url : String := "https://github.com/trollfaceiv"

/-- `Me.system_prompt` (`main.py` lines 104-115): the f-string with its
source-level line continuations (each continued line contributes its
eight leading spaces), then the summary and LinkedIn sections, then the
closing sentence. -/
def systemPrompt (me : MeState) : String :=
  "You are acting as " ++ me.name ++ ". You are answering questions on " ++ me.name ++
  "\x27s website,         particularly questions related to " ++ me.name ++
  "\x27s career, background, skills and experience.         Your responsibility is to represent " ++
  me.name ++
  " for interactions on the website as faithfully as possible.         You are given a summary of " ++
  me.name ++
  "\x27s background and LinkedIn profile which you can use to answer questions.         Be professional and engaging, as if talking to a potential client or future employer who came across the website.         If you don\x27t know the answer to any question, use your record_unknown_question tool to record the question that you couldn\x27t answer, even if it\x27s about something trivial or unrelated to career.         If the user is engaging in discussion, try to steer them towards getting in touch via email; ask for their email and record it using your record_user_details tool. " ++
  "\n\n## Summary:\n" ++ me.summary ++ "\n\n## LinkedIn Profile:\n" ++ me.linkedin ++ "\n\n" ++
  "With this context, please chat with the user, always staying in character as " ++ me.name ++ "."

/-- The assistant message object appended verbatim to `messages` when the
endpoint requests tool calls (`main.py` line 128). -/
def assistantOf (m : AssistantMsg) : Message :=
  Message.assistant m.content m.tool_calls

/-- `messages = [{"role": "system", ...}] + history + [{"role": "user",
...}]` (`main.py` line 119). -/
def initialMessages (me : MeState) (message : String) (history : List Message) :
    List Message :=
  Message.system (systemPrompt me) :: (history ++ [Message.user message])

/-- How a chat turn ends: a final answer (the returned
`response.choices[0].message.content`), an uncaught exception raised
while dispatching tools, or fuel exhaustion — the fuel-indexed stand-in
for the unbounded `while not done` loop, so that `fuelOut` at every fuel
renders divergence. -/
inductive ChatResult where
  | answer (content : Option String) : ChatResult
  | err (e : PyError) : ChatResult
  | fuelOut : ChatResult
  deriving DecidableEq

/-- The observable trace of one chat turn: each request's full message
sequence in the order sent to the endpoint, the notification texts
posted, and how the turn ended. -/
structure TurnTrace where
  requests : List (List Message)
  pushes : List String
  result : ChatResult
  deriving DecidableEq

/-- The `while not done` loop of `Me.chat` (`main.py` lines 120-132),
fuel-indexed: send the current message sequence, and either finish with
the response content, or dispatch the requested tool calls, append the
assistant message and the tool results, and iterate. A raised dispatch
exception ends the turn with `err` (it propagates out of `chat`). -/
def chatLoop (endpoint : List Message → Response) :
    Nat → List Message → TurnTrace
  | 0, _ => ⟨[], [], ChatResult.fuelOut⟩
  | fuel + 1, msgs =>
      let resp := endpoint msgs
      if resp.finish_reason = "tool_calls" then
        let handled := handleToolCalls resp.message.tool_calls
        match handled.2 with
        | Except.error e => ⟨[msgs], handled.1, ChatResult.err e⟩
        | Except.ok results =>
            let t := chatLoop endpoint fuel (msgs ++ (assistantOf resp.message :: results))
            ⟨msgs :: t.requests, handled.1 ++ t.pushes, t.result⟩
      else ⟨[msgs], [], ChatResult.answer resp.message.content⟩

/-- `Me.chat(message, history)` (`main.py` lines 118-132), with the
remote endpoint abstracted as a function from the request message
sequence to `response.choices[0]`, and the loop fuel-indexed. -/
def chat (me : MeState) (endpoint : List Message → Response) (fuel : Nat)
    (message : String) (history : List Message) : TurnTrace :=
  chatLoop endpoint fuel (initialMessages me message history)

/-- The filesystem inputs read by `Me.__init__`: the profile PDF as the
list of its pages' `extract_text()` results (`none` when extraction
yields no text for a page), and the summary text file's content. A
missing or unreadable file is `none`. -/
structure FileSystem where
  profilePdf : Option (List (Option String))
  summaryTxt : Option String
  deriving DecidableEq

/-- Why startup aborted: `PdfReader(self.profile_path)` raised, or
opening/reading `summary.txt` raised. -/
inductive StartupError where
  | profileUnreadable : StartupError
  | summaryUnreadable : StartupError
  deriving DecidableEq

/-- The page loop of `Me.__init__` (`main.py` lines 85-89): concatenate
each page's extracted text, skipping falsy results (`None` and the empty
string), in page order with no separators. -/
def extractLinkedin (pages : List (Option String)) : String :=
  pages.foldl
    (fun acc t =>
      match t with
      | none => acc
      | some s => if s = "" then acc else acc ++ s) ("")

/-- `Me.__init__` (`main.py` lines 74-91) over the filesystem model: both
profile sources are read with no exception handling, so a missing or
unreadable file raises and construction fails. -/
def meInit (fs : FileSystem) : Except StartupError MeState :=
  match fs.profilePdf with
  | none => Except.error StartupError.profileUnreadable
  | some pages =>
      match fs.summaryTxt with
      | none => Except.error StartupError.summaryUnreadable
      | some s => Except.ok ⟨"Gennaro Rascato", extractLinkedin pages, s⟩

/-- The excerpt shown by the accordion (`main.py` line 168):
`me.summary[:1200] + ("..." if len(me.summary) > 1200 else "")`, on the
summary's characters (Python slices strings by code point). -/
def displayedExcerpt (s : List Char) : List Char :=
  s.take 1200 ++ (if 1200 < s.length then ("...").data else [])

/-- The static UI pieces built in the `__main__` block that consume the
profile state: the two links, and the accordion's summary excerpt. -/
structure UIModel where
  linkedinLink : String
  githubLink : String
  summaryExcerpt : List Char
  deriving DecidableEq

/-- The `gr.Blocks` layout of the `__main__` block, restricted to the
fields it reads from `me`. -/
def buildUI (me : MeState) : UIModel :=
  ⟨linkedin_url, github_url, displayedExcerpt me.summary.data⟩

/-- Whether startup reached `demo.launch()` or aborted earlier with an
uncaught exception. -/
inductive MainResult where
  | launched (ui : UIModel) : MainResult
  | aborted (e : StartupError) : MainResult
  deriving DecidableEq

/-- The `__main__` block (`main.py` lines 136-170): construct `Me()` —
any startup exception propagates and the process dies before any UI
exists — then build the layout and launch it. -/
def mainProgram (fs : FileSystem) : MainResult :=
  match meInit fs with
  | Except.error e => MainResult.aborted e
  | Except.ok me => MainResult.launched (buildUI me)

/-- A reference to a Python list object. -/
abbrev Ref := Nat

/-- The heap of Python list-of-message objects live during a chat turn,
indexed by `Ref`. Only `Me.chat` mutates lists, so nothing else needs to
live on the heap. -/
structure PyHeap where
  lists : List (List Message)
  deriving DecidableEq

/-- Read a list object (out-of-range reads are irrelevant and default to
`[]`). -/
def PyHeap.get (h : PyHeap) (r : Ref) : List Message :=
  h.lists.getD r []

/-- Allocate a fresh list object holding `v` and return its reference. -/
def PyHeap.alloc (h : PyHeap) (v : List Message) : PyHeap × Ref :=
  (⟨h.lists ++ [v]⟩, h.lists.length)

/-- `list.append(m)`: in-place mutation of the referenced list. -/
def PyHeap.push (h : PyHeap) (r : Ref) (m : Message) : PyHeap :=
  ⟨h.lists.set r (h.get r ++ [m])⟩

/-- `list.extend(ms)`: in-place mutation of the referenced list. -/
def PyHeap.extendList (h : PyHeap) (r : Ref) (ms : List Message) : PyHeap :=
  ⟨h.lists.set r (h.get r ++ ms)⟩

/-- The `while` loop of `Me.chat` over the heap model: the loop reads and
mutates only the `messages` list it is given a reference to
(`messages.append(message)` then `messages.extend(results)`). -/
def chatLoopH (endpoint : List Message → Response) :
    Nat → PyHeap → Ref → PyHeap × ChatResult
  | 0, h, _ => (h, ChatResult.fuelOut)
  | fuel + 1, h, msgsRef =>
      let resp := endpoint (h.get msgsRef)
      if resp.finish_reason = "tool_calls" then
        match (handleToolCalls resp.message.tool_calls).2 with
        | Except.error e => (h, ChatResult.err e)
        | Except.ok results =>
            chatLoopH endpoint fuel
              ((h.push msgsRef (assistantOf resp.message)).extendList msgsRef results)
              msgsRef
      else (h, ChatResult.answer resp.message.content)

/-- `Me.chat` over the heap model: line 119 reads the caller's `history`
list and builds `messages` as a *fresh* list object
(`[...] + history + [...]` allocates); the loop then mutates only that
fresh object. -/
def chatH (me : MeState) (endpoint : List Message → Response) (fuel : Nat)
    (h : PyHeap) (histRef : Ref) (message : String) : PyHeap × ChatResult :=
  let alloc := h.alloc (initialMessages me message (h.get histRef))
  chatLoopH endpoint fuel alloc.1 alloc.2

/-- The `tool_call_id` of a tool-result message, `none` on every other
message kind. -/
def toolCallIdOf : Message → Option String
  | Message.tool _ cid => some cid
  | _ => none

/-- The second request of a two-round-trip turn: the first request, then
the assistant tool-call message, then the tool-result messages. -/
def secondRequest (endpoint : List Message → Response) (me : MeState)
    (message : String) (history : List Message) (results : List Message) :
    List Message :=
  initialMessages me message history ++
    (assistantOf (endpoint (initialMessages me message history)).message :: results)

theorem chatLoop_final (endpoint : List Message → Response) (fuel : Nat)
    (msgs : List Message) (hfuel : 1 ≤ fuel)
    (h : (endpoint msgs).finish_reason ≠ "tool_calls") :
    chatLoop endpoint fuel msgs =
      ⟨[msgs], [], ChatResult.answer (endpoint msgs).message.content⟩ := by
  obtain ⟨n, rfl⟩ : ∃ n, fuel = n + 1 := ⟨fuel - 1, by omega⟩
  simp [chatLoop, h]

theorem chatLoop_toolStep (endpoint : List Message → Response) (fuel : Nat)
    (msgs : List Message) (ps : List String) (results : List Message)
    (h1 : (endpoint msgs).finish_reason = "tool_calls")
    (h2 : handleToolCalls (endpoint msgs).message.tool_calls = (ps, Except.ok results)) :
    chatLoop endpoint (fuel + 1) msgs =
      ⟨msgs :: (chatLoop endpoint fuel (msgs ++ (assistantOf (endpoint msgs).message :: results))).requests,
       ps ++ (chatLoop endpoint fuel (msgs ++ (assistantOf (endpoint msgs).message :: results))).pushes,
       (chatLoop endpoint fuel (msgs ++ (assistantOf (endpoint msgs).message :: results))).result⟩ := by
  simp [chatLoop, h1, h2]

theorem chatLoop_errStep (endpoint : List Message → Response) (fuel : Nat)
    (msgs : List Message) (ps : List String) (e : PyError)
    (h1 : (endpoint msgs).finish_reason = "tool_calls")
    (h2 : handleToolCalls (endpoint msgs).message.tool_calls = (ps, Except.error e)) :
    chatLoop endpoint (fuel + 1) msgs = ⟨[msgs], ps, ChatResult.err e⟩ := by
  simp [chatLoop, h1, h2]

theorem handleToolCalls_ok_ids (tcs : List ToolCall) (ps : List String)
    (rs : List Message) (h : handleToolCalls tcs = (ps, Except.ok rs)) :
    rs.map toolCallIdOf = tcs.map (fun tc => some tc.id) := by
  induction tcs generalizing ps rs with
  | nil =>
      rw [handleToolCalls] at h
      obtain ⟨-, h2⟩ := Prod.mk.injEq .. ▸ h
      cases h2
      simp
  | cons tc rest ih =>
      rw [handleToolCalls] at h
      cases harg : jsonLoads tc.arguments with
      | error e => rw [harg] at h; simp at h
      | ok args =>
          rw [harg] at h
          dsimp only at h
          cases hd : dispatchLookup tc.name args with
          | error e => rw [hd] at h; simp at h
          | ok rp =>
              rw [hd] at h
              obtain ⟨result, pushes⟩ := rp
              dsimp only at h
              rcases hrest : handleToolCalls rest with ⟨rps, rres⟩
              rw [hrest] at h
              cases rres with
              | error e => simp at h
              | ok rmsgs =>
                  simp only [Prod.mk.injEq, Except.ok.injEq] at h
                  obtain ⟨-, h2⟩ := h
                  subst h2
                  simpa [toolCallIdOf] using ih rps rmsgs hrest

/-- Profile state fixture for concrete runs. -/
def meW : MeState := ⟨"N", "L", "S"⟩

/-- A final (no tool call) endpoint response fixture. -/
def finalRespW : Response := ⟨"stop", ⟨some "ans", []⟩⟩

/-- A valid `record_unknown_question` tool call fixture. -/
def tcW : ToolCall :=
  ⟨"call_1", "record_unknown_question", ArgText.valid (PyJson.jsonObject [("question", "q")])⟩

/-- A tool-call endpoint response fixture requesting `tcW`. -/
def toolRespW : Response := ⟨"tool_calls", ⟨none, [tcW]⟩⟩

/-- Endpoint fixture: requests `tcW` on the initial two-message request
(empty history), answers finally afterwards. -/
def endpointW : List Message → Response :=
  fun msgs => if msgs.length == 2 then toolRespW else finalRespW

/-- C2: for a turn where the endpoint's first response has a finish
reason other than `"tool_calls"`, the engine performs exactly one
round trip — the request list is just the initial message sequence — and
returns that response message's content unchanged as the answer. -/
theorem c2_single_round_trip (me : MeState) (endpoint : List Message → Response)
    (fuel : Nat) (message : String) (history : List Message)
    (hfuel : 1 ≤ fuel)
    (hfin : (endpoint (initialMessages me message history)).finish_reason ≠ "tool_calls") :
    chat me endpoint fuel message history =
      ⟨[initialMessages me message history], [],
        ChatResult.answer (endpoint (initialMessages me message history)).message.content⟩ := by
  unfold chat
  exact chatLoop_final endpoint fuel _ hfuel hfin

/-- Witness for C2 at a concrete endpoint that always answers finally. -/
theorem c2_single_round_trip_witness :
    chat meW (fun _ => finalRespW) 1 ("hi") [] =
      ⟨[initialMessages meW ("hi") []], [], ChatResult.answer (some "ans")⟩ :=
  c2_single_round_trip meW (fun _ => finalRespW) 1 ("hi") [] (by decide) (by decide)

/-- C1: for a turn where the endpoint first requests tool calls and the
second response is final, the engine performs exactly 2 round trips; the
second request is the first request, then the assistant tool-call
message, then exactly one tool-result message per requested call in
order, each carrying the originating call's id. -/
theorem c1_tool_turn_two_round_trips (me : MeState)
    (endpoint : List Message → Response) (fuel : Nat) (message : String)
    (history : List Message) (ps : List String) (results : List Message)
    (hfuel : 2 ≤ fuel)
    (h1 : (endpoint (initialMessages me message history)).finish_reason = "tool_calls")
    (h2 : handleToolCalls (endpoint (initialMessages me message history)).message.tool_calls
            = (ps, Except.ok results))
    (h3 : (endpoint (secondRequest endpoint me message history results)).finish_reason
            ≠ "tool_calls") :
    chat me endpoint fuel message history =
      ⟨[initialMessages me message history,
        secondRequest endpoint me message history results],
       ps,
       ChatResult.answer
         (endpoint (secondRequest endpoint me message history results)).message.content⟩
    ∧ results.length
        = (endpoint (initialMessages me message history)).message.tool_calls.length
    ∧ results.map toolCallIdOf
        = (endpoint (initialMessages me message history)).message.tool_calls.map
            (fun tc => some tc.id) := by
  have hids := handleToolCalls_ok_ids _ _ _ h2
  have hlen : results.length
      = (endpoint (initialMessages me message history)).message.tool_calls.length := by
    have := congrArg List.length hids
    simpa using this
  refine ⟨?_, hlen, hids⟩
  obtain ⟨n, rfl⟩ : ∃ n, fuel = n + 1 := ⟨fuel - 1, by omega⟩
  have hn : 1 ≤ n := by omega
  unfold chat
  rw [chatLoop_toolStep endpoint n (initialMessages me message history) ps results h1 h2]
  have hsec : initialMessages me message history ++
      (assistantOf (endpoint (initialMessages me message history)).message :: results)
      = secondRequest endpoint me message history results := rfl
  rw [hsec, chatLoop_final endpoint n (secondRequest endpoint me message history results) hn h3]
  simp

/-- Witness for C1 at a concrete endpoint that requests one tool call,
then answers finally. -/
theorem c1_tool_turn_two_round_trips_witness :
    chat meW endpointW 2 ("hi") [] =
      ⟨[initialMessages meW ("hi") [],
        secondRequest endpointW meW ("hi") []
          [Message.tool ("\x7b\"recorded\": \"ok\"\x7d") ("call_1")]],
       [record_unknown_question_message ("q")],
       ChatResult.answer (some "ans")⟩ :=
  (c1_tool_turn_two_round_trips meW endpointW 2 ("hi") []
    [record_unknown_question_message ("q")]
    [Message.tool ("\x7b\"recorded\": \"ok\"\x7d") ("call_1")]
    (by decide) (by decide) (by rfl) (by decide)).1

/-- One loop iteration's growth of the request sequence: append the
assistant tool-call message and the dispatched results (meaningful at
requests where the endpoint asks for tools and dispatch succeeds). -/
def nextRequest (endpoint : List Message → Response) (msgs : List Message) :
    List Message :=
  msgs ++ (assistantOf (endpoint msgs).message ::
    ((handleToolCalls (endpoint msgs).message.tool_calls).2.toOption.getD []))

/-- The trajectory of requests the loop sends, from a start request. -/
def reqSeq (endpoint : List Message → Response) (start : List Message) :
    Nat → List Message
  | 0 => start
  | i + 1 => nextRequest endpoint (reqSeq endpoint start i)

/-- At this request the endpoint asks for tool calls and dispatching them
succeeds. -/
def toolCallStage (endpoint : List Message → Response) (msgs : List Message) :
    Prop :=
  (endpoint msgs).finish_reason = "tool_calls" ∧
    ∃ ps rs,
      handleToolCalls (endpoint msgs).message.tool_calls = (ps, Except.ok rs)

theorem reqSeq_shift (endpoint : List Message → Response) (start : List Message)
    (i : Nat) :
    reqSeq endpoint start (i + 1) = reqSeq endpoint (nextRequest endpoint start) i := by
  induction i with
  | zero => rfl
  | succ n ih => exact congrArg (nextRequest endpoint) ih

theorem chatLoop_counts (endpoint : List Message → Response) (k : Nat) :
    ∀ start fuel,
      (∀ i, i < k → toolCallStage endpoint (reqSeq endpoint start i)) →
      (endpoint (reqSeq endpoint start k)).finish_reason ≠ "tool_calls" →
      k + 1 ≤ fuel →
      (chatLoop endpoint fuel start).requests.length = k + 1 ∧
        (chatLoop endpoint fuel start).result =
          ChatResult.answer (endpoint (reqSeq endpoint start k)).message.content := by
  induction k with
  | zero =>
      intro start fuel _ hfin hfuel
      rw [chatLoop_final endpoint fuel start hfuel hfin]
      exact ⟨rfl, rfl⟩
  | succ n ih =>
      intro start fuel htool hfin hfuel
      obtain ⟨m, rfl⟩ : ∃ m, fuel = m + 1 := ⟨fuel - 1, by omega⟩
      obtain ⟨h1, ps, rs, h2⟩ := htool 0 (by omega)
      have h1s : (endpoint start).finish_reason = "tool_calls" := h1
      have h2s : handleToolCalls (endpoint start).message.tool_calls
          = (ps, Except.ok rs) := h2
      have hnext : nextRequest endpoint start
          = start ++ (assistantOf (endpoint start).message :: rs) := by
        unfold nextRequest
        rw [h2s]
        rfl
      have hshift : ∀ j, reqSeq endpoint start (j + 1)
          = reqSeq endpoint (start ++ (assistantOf (endpoint start).message :: rs)) j := by
        intro j
        rw [reqSeq_shift, hnext]
      rw [chatLoop_toolStep endpoint m start ps rs h1s h2s]
      have hrec := ih (start ++ (assistantOf (endpoint start).message :: rs)) m
        (fun i hi => hshift i ▸ htool (i + 1) (by omega))
        (hshift n ▸ hfin) (by omega)
      refine ⟨by simpa using hrec.1, ?_⟩
      rw [hshift n] at *
      exact hrec.2

theorem chatLoop_diverges (endpoint : List Message → Response)
    (h : ∀ msgs, toolCallStage endpoint msgs) :
    ∀ fuel start,
      (chatLoop endpoint fuel start).result = ChatResult.fuelOut ∧
        (chatLoop endpoint fuel start).requests.length = fuel := by
  intro fuel
  induction fuel with
  | zero => intro start; exact ⟨rfl, rfl⟩
  | succ n ih =>
      intro start
      obtain ⟨h1, ps, rs, h2⟩ := h start
      rw [chatLoop_toolStep endpoint n start ps rs h1 h2]
      obtain ⟨ha, hb⟩ := ih (start ++ (assistantOf (endpoint start).message :: rs))
      exact ⟨ha, by simpa using hb⟩

/-- C6: the loop enforces no iteration bound. If the endpoint behaviour
reaches a non-tool-call response after `k` successfully dispatched
tool-call responses along the request trajectory, the turn terminates
after exactly `k + 1` round trips with that response's content; if the
endpoint always requests tool calls (dispatch succeeding), the loop
never terminates — it exhausts every fuel, making one round trip per
unit of fuel. -/
theorem c6_unbounded_tool_loop (me : MeState)
    (endpoint : List Message → Response) (message : String)
    (history : List Message) :
    (∀ k fuel,
       (∀ i, i < k →
         toolCallStage endpoint (reqSeq endpoint (initialMessages me message history) i)) →
       (endpoint (reqSeq endpoint (initialMessages me message history) k)).finish_reason
           ≠ "tool_calls" →
       k + 1 ≤ fuel →
       (chat me endpoint fuel message history).requests.length = k + 1 ∧
         (chat me endpoint fuel message history).result =
           ChatResult.answer
             (endpoint (reqSeq endpoint (initialMessages me message history) k)).message.content)
    ∧ ((∀ msgs, toolCallStage endpoint msgs) →
       ∀ fuel,
         (chat me endpoint fuel message history).result = ChatResult.fuelOut ∧
           (chat me endpoint fuel message history).requests.length = fuel) := by
  constructor
  · intro k fuel h1 h2 h3
    exact chatLoop_counts endpoint k (initialMessages me message history) fuel h1 h2 h3
  · intro h fuel
    exact chatLoop_diverges endpoint h fuel (initialMessages me message history)

/-- Witness for C6: a concrete endpoint that answers at once terminates
in one round trip; a concrete endpoint that always requests a tool call
exhausts any fuel (shown at fuel 3). -/
theorem c6_unbounded_tool_loop_witness :
    ((chat meW (fun _ => finalRespW) 1 ("hi") []).requests.length = 1 ∧
      (chat meW (fun _ => finalRespW) 1 ("hi") []).result
        = ChatResult.answer (some "ans")) ∧
    ((chat meW (fun _ => toolRespW) 3 ("hi") []).result = ChatResult.fuelOut ∧
      (chat meW (fun _ => toolRespW) 3 ("hi") []).requests.length = 3) :=
  ⟨(c6_unbounded_tool_loop meW (fun _ => finalRespW) ("hi") []).1 0 1
      (fun i hi => absurd hi (by omega)) (by decide) (by decide),
   (c6_unbounded_tool_loop meW (fun _ => toolRespW) ("hi") []).2
      (fun _ => ⟨rfl, [record_unknown_question_message ("q")],
        [Message.tool ("\x7b\"recorded\": \"ok\"\x7d") ("call_1")], by rfl⟩) 3⟩

/-- Counterexample to C3 as stated: the name `push` is neither registered
tool, yet dispatching a call named `push` finds the module-level `push`
function in `globals()` and invokes it — the message is actually posted —
and the tool-result content is `"null"` (`json.dumps(None)`), not the
serialized empty object. -/
theorem c3_counterexample_push_invoked :
    (("push") ≠ ("record_user_details") ∧ ("push") ≠ ("record_unknown_question")) ∧
    handleToolCalls [⟨("id0"), ("push"), ArgText.valid (PyJson.jsonObject [(("message"), ("x"))])⟩]
      = ([("x")], Except.ok [Message.tool ("null") ("id0")]) ∧
    Message.tool ("null") ("id0") ≠ Message.tool (jsonDumps (PyResult.obj [])) ("id0") :=
  ⟨⟨by decide, by decide⟩, by rfl, by decide⟩

/-- C3 (amended): for every tool name that is not bound in the module's
global namespace, and every arguments value, dispatch returns the
serialized empty result object and raises nothing. (The original
quantification — every name outside the two-tool registry — fails
because `Me.handle_tool_calls` looks names up in `globals()`: see the
counterexample at name `push`.) -/
theorem c3_unknown_tool_noop (name : String) (h : globalsGet name = none)
    (id : String) (args : PyJson) :
    handleToolCalls [⟨id, name, ArgText.valid args⟩]
      = ([], Except.ok [Message.tool ("\x7b\x7d") id]) := by
  simp [handleToolCalls, jsonLoads, dispatchLookup, h, jsonDumps]
  rfl

/-- Witness for the amended C3 at the unbound name `record_contact`. -/
theorem c3_unknown_tool_noop_witness :
    globalsGet ("record_contact") = none ∧
    handleToolCalls [⟨("id0"), ("record_contact"),
        ArgText.valid (PyJson.jsonObject [(("email"), ("a@b.com"))])⟩]
      = ([], Except.ok [Message.tool ("\x7b\x7d") ("id0")]) :=
  ⟨by decide,
   c3_unknown_tool_noop ("record_contact") (by decide) ("id0")
     (PyJson.jsonObject [(("email"), ("a@b.com"))])⟩

/-- The declared parameter contract of a registered tool: required field
names and declared properties (`additionalProperties: false`). -/
structure ToolSchema where
  required : List String
  properties : List String
  deriving DecidableEq

/-- The `parameters` contract of `record_user_details_json` (`main.py`
lines 29-51). -/
def record_user_details_schema : ToolSchema :=
  ⟨[("email")], [("email"), ("name"), ("notes")]⟩

/-- The `parameters` contract of `record_unknown_question_json`
(`main.py` lines 53-67). -/
def record_unknown_question_schema : ToolSchema := ⟨[("question")], [("question")]⟩

/-- An argument object matches a declared schema: every required field
is present and no undeclared field occurs. -/
def matchesSchema (sch : ToolSchema) (kwargs : List (String × String)) : Prop :=
  (∀ r ∈ sch.required, (lookupKw r kwargs).isSome) ∧
    ∀ p ∈ kwargs, p.1 ∈ sch.properties

/-- C4: for every argument object matching a registered tool's declared
schema, dispatching a call with that tool's name invokes exactly that
tool — the posted notification is the one that tool builds — and the
tool result content is the serialized `{"recorded": "ok"}`. -/
theorem c4_valid_args_invoke (id : String) (kwargs : List (String × String)) :
    (matchesSchema record_user_details_schema kwargs →
      handleToolCalls
          [⟨id, ("record_user_details"), ArgText.valid (PyJson.jsonObject kwargs)⟩]
        = ([record_user_details_message ((lookupKw ("email") kwargs).getD (""))
              ((lookupKw ("name") kwargs).getD ("Name not provided"))
              ((lookupKw ("notes") kwargs).getD ("not provided"))],
           Except.ok [Message.tool (jsonDumps (PyResult.obj [(("recorded"), ("ok"))])) id]))
    ∧ (matchesSchema record_unknown_question_schema kwargs →
      handleToolCalls
          [⟨id, ("record_unknown_question"), ArgText.valid (PyJson.jsonObject kwargs)⟩]
        = ([record_unknown_question_message ((lookupKw ("question") kwargs).getD (""))],
           Except.ok [Message.tool (jsonDumps (PyResult.obj [(("recorded"), ("ok"))])) id])) := by
  constructor
  · rintro ⟨hreq, hprops⟩
    have hg : globalsGet ("record_user_details") = some PyGlobal.gRecordUserDetails := by
      decide
    have hall : kwargs.all
        (fun p => p.1 == "email" || p.1 == "name" || p.1 == "notes") = true := by
      rw [List.all_eq_true]
      intro p hp
      have hmem := hprops p hp
      simp [record_user_details_schema] at hmem
      rcases hmem with h | h | h <;> simp [h]
    obtain ⟨email, hemail⟩ := Option.isSome_iff_exists.mp
      (hreq ("email") (by simp [record_user_details_schema]))
    simp [handleToolCalls, jsonLoads, dispatchLookup, hg, invokeGlobal,
      callRecordUserDetails, hall, hemail, record_user_details]
  · rintro ⟨hreq, hprops⟩
    have hg : globalsGet ("record_unknown_question")
        = some PyGlobal.gRecordUnknownQuestion := by decide
    have hall : kwargs.all (fun p => p.1 == "question") = true := by
      rw [List.all_eq_true]
      intro p hp
      have hmem := hprops p hp
      simp [record_unknown_question_schema] at hmem
      simp [hmem]
    obtain ⟨q, hq⟩ := Option.isSome_iff_exists.mp
      (hreq ("question") (by simp [record_unknown_question_schema]))
    simp [handleToolCalls, jsonLoads, dispatchLookup, hg, invokeGlobal,
      callRecordUnknownQuestion, hall, hq, record_unknown_question]

/-- Witness for C4 at concrete valid argument objects for both tools. -/
theorem c4_valid_args_invoke_witness :
    (matchesSchema record_user_details_schema [(("email"), ("a@b.com"))] ∧
      handleToolCalls [⟨("id0"), ("record_user_details"),
          ArgText.valid (PyJson.jsonObject [(("email"), ("a@b.com"))])⟩]
        = ([record_user_details_message ("a@b.com") ("Name not provided") ("not provided")],
           Except.ok [Message.tool (jsonDumps (PyResult.obj [(("recorded"), ("ok"))])) ("id0")]))
    ∧ (matchesSchema record_unknown_question_schema [(("question"), ("q"))] ∧
      handleToolCalls [⟨("id1"), ("record_unknown_question"),
          ArgText.valid (PyJson.jsonObject [(("question"), ("q"))])⟩]
        = ([record_unknown_question_message ("q")],
           Except.ok [Message.tool (jsonDumps (PyResult.obj [(("recorded"), ("ok"))])) ("id1")])) :=
  ⟨⟨⟨by decide, by decide⟩,
    (c4_valid_args_invoke ("id0") [(("email"), ("a@b.com"))]).1 ⟨by decide, by decide⟩⟩,
   ⟨⟨by decide, by decide⟩,
    (c4_valid_args_invoke ("id1") [(("question"), ("q"))]).2 ⟨by decide, by decide⟩⟩⟩

theorem handleToolCalls_append_invalid (bad : ToolCall) (post : List ToolCall)
    (hbad : bad.arguments = ArgText.invalid) :
    ∀ pre prePs preRs, handleToolCalls pre = (prePs, Except.ok preRs) →
      handleToolCalls (pre ++ bad :: post)
        = (prePs, Except.error PyError.jsonDecodeError) := by
  intro pre
  induction pre with
  | nil =>
      intro prePs preRs hpre
      simp only [handleToolCalls, Prod.mk.injEq] at hpre
      obtain ⟨h1, -⟩ := hpre
      subst h1
      simp [handleToolCalls, hbad, jsonLoads]
  | cons tc rest ih =>
      intro prePs preRs hpre
      rw [handleToolCalls] at hpre
      rw [List.cons_append, handleToolCalls]
      cases harg : jsonLoads tc.arguments with
      | error e => rw [harg] at hpre; simp at hpre
      | ok args =>
          rw [harg] at hpre
          dsimp only at hpre ⊢
          cases hd : dispatchLookup tc.name args with
          | error e => rw [hd] at hpre; simp at hpre
          | ok rp =>
              rw [hd] at hpre
              obtain ⟨result, pushes⟩ := rp
              dsimp only at hpre ⊢
              rcases hrest : handleToolCalls rest with ⟨rps, rres⟩
              rw [hrest] at hpre
              cases rres with
              | error e => simp at hpre
              | ok rmsgs =>
                  simp only [Prod.mk.injEq, Except.ok.injEq] at hpre
                  obtain ⟨h1, -⟩ := hpre
                  rw [ih rps rmsgs hrest]
                  rw [← h1]

/-- C5: a tool call whose arguments string is not valid JSON makes
dispatch raise `json.JSONDecodeError`: the failing call's tool is never
invoked (the posted notifications are exactly those of the calls before
it), the accumulated tool-result messages of the batch are discarded —
the error replaces them — and at the turn level the exception propagates
out of `chat` with no further request sent. -/
theorem c5_invalid_json_aborts (pre : List ToolCall) (bad : ToolCall)
    (post : List ToolCall) (prePs : List String) (preRs : List Message)
    (hpre : handleToolCalls pre = (prePs, Except.ok preRs))
    (hbad : bad.arguments = ArgText.invalid) :
    handleToolCalls (pre ++ bad :: post)
      = (prePs, Except.error PyError.jsonDecodeError)
    ∧ ∀ (me : MeState) (endpoint : List Message → Response) (fuel : Nat)
        (message : String) (history : List Message),
        1 ≤ fuel →
        (endpoint (initialMessages me message history)).finish_reason = "tool_calls" →
        (endpoint (initialMessages me message history)).message.tool_calls
          = pre ++ bad :: post →
        chat me endpoint fuel message history =
          ⟨[initialMessages me message history], prePs,
            ChatResult.err PyError.jsonDecodeError⟩ := by
  have herr := handleToolCalls_append_invalid bad post hbad pre prePs preRs hpre
  refine ⟨herr, ?_⟩
  intro me endpoint fuel message history hfuel h1 h2
  obtain ⟨n, rfl⟩ : ∃ n, fuel = n + 1 := ⟨fuel - 1, by omega⟩
  unfold chat
  exact chatLoop_errStep endpoint n (initialMessages me message history) prePs
    PyError.jsonDecodeError h1 (by rw [h2]; exact herr)

/-- A tool call with an invalid-JSON arguments string. -/
def badTcW : ToolCall := ⟨"call_bad", "record_unknown_question", ArgText.invalid⟩

/-- Witness for C5: a batch of a valid call, an invalid-JSON call and a
trailing valid call raises; only the first call's notification is
posted, and the concrete turn ends with the error after one request. -/
theorem c5_invalid_json_aborts_witness :
    handleToolCalls [tcW, badTcW, tcW]
      = ([record_unknown_question_message ("q")], Except.error PyError.jsonDecodeError)
    ∧ chat meW (fun _ => ⟨("tool_calls"), ⟨none, [tcW, badTcW, tcW]⟩⟩) 1 ("hi") []
        = ⟨[initialMessages meW ("hi") []],
           [record_unknown_question_message ("q")],
           ChatResult.err PyError.jsonDecodeError⟩ :=
  have h := c5_invalid_json_aborts [tcW] badTcW [tcW]
    [record_unknown_question_message ("q")]
    [Message.tool ("\x7b\"recorded\": \"ok\"\x7d") ("call_1")] (by rfl) (by rfl)
  ⟨h.1, h.2 meW (fun _ => ⟨("tool_calls"), ⟨none, [tcW, badTcW, tcW]⟩⟩) 1 ("hi") []
    (by decide) (by rfl) (by rfl)⟩

/-- C7: calling `record_user_details` with only an email (name and notes
omitted) succeeds with `{"recorded": "ok"}`, and the single posted
notification text contains the default name `Name not provided`, the
default notes `not provided`, and the given email. -/
theorem c7_default_name_and_notes (email : String) :
    callRecordUserDetails [(("email"), email)]
      = Except.ok (PyResult.obj [(("recorded"), ("ok"))],
          [record_user_details_message email ("Name not provided") ("not provided")])
    ∧ (∃ l r,
        (record_user_details_message email ("Name not provided") ("not provided")).data
          = l ++ ("Name not provided").data ++ r)
    ∧ (∃ l r,
        (record_user_details_message email ("Name not provided") ("not provided")).data
          = l ++ ("not provided").data ++ r)
    ∧ (∃ l r,
        (record_user_details_message email ("Name not provided") ("not provided")).data
          = l ++ email.data ++ r) := by
  refine ⟨rfl, ?_, ?_, ?_⟩
  · exact ⟨("Recording interest from ").data,
      ((", with ") ++ email ++ (", and notes not provided")).data,
      by simp [record_user_details_message, String.data_append]⟩
  · exact ⟨(("Recording interest from Name not provided, with ") ++ email
        ++ (", and notes ")).data, [],
      by simp [record_user_details_message, String.data_append]⟩
  · exact ⟨("Recording interest from Name not provided, with ").data,
      ((", and notes not provided")).data,
      by simp [record_user_details_message, String.data_append]⟩

/-- C8: the accordion excerpt equals the summary itself when its length
is at most 1200 characters, and equals its first 1200 characters
followed by the ellipsis marker `...` when longer. -/
theorem c8_summary_excerpt (s : List Char) :
    (s.length ≤ 1200 → displayedExcerpt s = s) ∧
    (1200 < s.length → displayedExcerpt s = s.take 1200 ++ ("...").data) := by
  constructor
  · intro h
    rw [displayedExcerpt, if_neg (by omega), List.take_of_length_le h, List.append_nil]
  · intro h
    rw [displayedExcerpt, if_pos h]

/-- Witness for C8: a short summary is shown whole; a 1201-character
summary is cut to 1200 characters plus the marker. -/
theorem c8_summary_excerpt_witness :
    (("abc").data.length ≤ 1200 ∧ displayedExcerpt (("abc").data) = ("abc").data) ∧
    (1200 < (List.replicate 1201 ('a')).length ∧
      displayedExcerpt (List.replicate 1201 ('a'))
        = (List.replicate 1201 ('a')).take 1200 ++ ("...").data) :=
  ⟨⟨by decide, (c8_summary_excerpt (("abc").data)).1 (by decide)⟩,
   ⟨by rw [List.length_replicate]; omega,
    (c8_summary_excerpt (List.replicate 1201 ('a'))).2
      (by rw [List.length_replicate]; omega)⟩⟩

/-- C9: if either profile source is missing or unreadable at startup
(an absent file content in the filesystem model), `Me()` raises, the
`__main__` block aborts before the chat UI is built or launched, and no
degraded mode is entered. -/
theorem c9_startup_aborts (fs : FileSystem)
    (h : fs.profilePdf = none ∨ fs.summaryTxt = none) :
    (∃ e, mainProgram fs = MainResult.aborted e) ∧
      ∀ ui, mainProgram fs ≠ MainResult.launched ui := by
  have habort : ∃ e, mainProgram fs = MainResult.aborted e := by
    rcases h with h | h
    · exact ⟨StartupError.profileUnreadable, by simp [mainProgram, meInit, h]⟩
    · rcases hpdf : fs.profilePdf with _ | pages
      · exact ⟨StartupError.profileUnreadable, by simp [mainProgram, meInit, hpdf]⟩
      · exact ⟨StartupError.summaryUnreadable, by simp [mainProgram, meInit, hpdf, h]⟩
  obtain ⟨e, he⟩ := habort
  refine ⟨⟨e, he⟩, ?_⟩
  intro ui hui
  rw [he] at hui
  cases hui

/-- Witness for C9 at a filesystem with the profile PDF missing. -/
theorem c9_startup_aborts_witness :
    ((⟨none, some ("s")⟩ : FileSystem).profilePdf = none ∨
      (⟨none, some ("s")⟩ : FileSystem).summaryTxt = none) ∧
    ((∃ e, mainProgram ⟨none, some ("s")⟩ = MainResult.aborted e) ∧
      ∀ ui, mainProgram ⟨none, some ("s")⟩ ≠ MainResult.launched ui) :=
  ⟨Or.inl rfl, c9_startup_aborts ⟨none, some ("s")⟩ (Or.inl rfl)⟩

theorem PyHeap_get_set_ne (h : PyHeap) (r r' : Ref) (v : List Message)
    (hne : r ≠ r') : PyHeap.get ⟨h.lists.set r' v⟩ r = h.get r := by
  simp only [PyHeap.get, List.getD_eq_getElem?_getD]
  rw [List.getElem?_set_ne hne.symm]

theorem PyHeap_get_mutate_ne (h : PyHeap) (r r' : Ref) (m : Message)
    (ms : List Message) (hne : r ≠ r') :
    ((h.push r' m).extendList r' ms).get r = h.get r := by
  unfold PyHeap.push PyHeap.extendList
  rw [PyHeap_get_set_ne _ _ _ _ hne, PyHeap_get_set_ne _ _ _ _ hne]

theorem chatLoopH_preserves (endpoint : List Message → Response) :
    ∀ (fuel : Nat) (h : PyHeap) (msgsRef r : Ref), r ≠ msgsRef →
      ((chatLoopH endpoint fuel h msgsRef).1).get r = h.get r := by
  intro fuel
  induction fuel with
  | zero => intro h msgsRef r hr; rfl
  | succ n ih =>
      intro h msgsRef r hr
      by_cases hfin : (endpoint (h.get msgsRef)).finish_reason = "tool_calls"
      · cases hd : (handleToolCalls (endpoint (h.get msgsRef)).message.tool_calls).2 with
        | error e => simp [chatLoopH, hfin, hd]
        | ok results =>
            have hstep : chatLoopH endpoint (n + 1) h msgsRef
                = chatLoopH endpoint n
                    ((h.push msgsRef (assistantOf (endpoint (h.get msgsRef)).message)).extendList
                      msgsRef results) msgsRef := by
              simp [chatLoopH, hfin, hd]
            rw [hstep, ih _ msgsRef r hr, PyHeap_get_mutate_ne _ _ _ _ _ hr]
      · simp [chatLoopH, hfin]

/-- C10: `Me.chat` builds the outgoing message sequence in a fresh list
(`[...] + history + [...]` allocates a new object) and the loop mutates
only that fresh list, so the caller's `history` list is
element-for-element what was passed in after the turn, whether or not
tool calls occurred. -/
theorem c10_history_not_mutated (me : MeState)
    (endpoint : List Message → Response) (fuel : Nat) (h : PyHeap)
    (histRef : Ref) (message : String)
    (hvalid : histRef < h.lists.length) :
    ((chatH me endpoint fuel h histRef message).1).get histRef = h.get histRef := by
  unfold chatH PyHeap.alloc
  rw [chatLoopH_preserves endpoint fuel _ _ _ (Nat.ne_of_lt hvalid)]
  simp only [PyHeap.get, List.getD_eq_getElem?_getD]
  rw [List.getElem?_append_left hvalid]

/-- Witness for C10: a concrete turn (with a tool round trip) leaves the
history cell untouched. -/
theorem c10_history_not_mutated_witness :
    0 < (PyHeap.mk [[Message.user ("old")]]).lists.length ∧
    ((chatH meW endpointW 2 (PyHeap.mk [[Message.user ("old")]]) 0 ("hi")).1).get 0
      = (PyHeap.mk [[Message.user ("old")]]).get 0 :=
  ⟨by decide, c10_history_not_mutated meW endpointW 2
    (PyHeap.mk [[Message.user ("old")]]) 0 ("hi") (by decide)⟩
